import Mathlib

/-!
Verification of the PSGC-API code classification and hierarchy-normalization
engine against its natural-language specification.

The JavaScript sources are shallowly embedded: JS strings become `List Char`,
nullable values become `Option`, and each script's functions become Lean
definitions named after their source counterparts.  The scripts modelled here
are `src/scripts/cleanPSGCData.js`, `src/scripts/validatePSGC.js`,
`src/scripts/importPSGC.js`, `src/scripts/fixMissingRecords.js`, and the
downloader scripts (`downloadFromPSA.js`, `fetchFromPSGCCloud.js`).
-/

namespace PSGC

/-- A JavaScript string is modelled as its list of characters. -/
abbrev Str := List Char

/-- Convert a Lean string literal to the `Str` model. -/
def toStr (s : String) : Str := s.data

/-- Characters matched by the regex class `\d` (and by `\D` complementation):
the ASCII digits `0`-`9`. -/
def jsIsDigit (c : Char) : Bool := '0' ≤ c && c ≤ '9'

/-- Whitespace characters removed by `String.prototype.trim` (the common ASCII
ones suffice for the data handled by these scripts). -/
def jsIsWs (c : Char) : Bool :=
  c == ' ' || c == '\t' || c == '\n' || c == '\r' || c == '\x0b' || c == '\x0c'

/-- JS `String.prototype.trim`: strip leading and trailing whitespace. -/
def jsTrim (s : Str) : Str :=
  ((s.dropWhile jsIsWs).reverse.dropWhile jsIsWs).reverse

/-- JS `String.prototype.toLowerCase` on the ASCII names in this dataset. -/
def toLower (s : Str) : Str := s.map Char.toLower

/-- JS `String.prototype.padStart(n, fill)`. -/
def padStart (n : Nat) (fill : Char) (s : Str) : Str :=
  List.replicate (n - s.length) fill ++ s

/-- A run of `n` zero characters. -/
def zeros (n : Nat) : Str := List.replicate n '0'

/-- JS `hay.includes(pat)` — substring containment. -/
def containsSub (hay pat : Str) : Bool := decide (pat <:+: hay)

/-- JS `hay.endsWith(pat)` (also `regex /pat$/` matching). -/
def jsEndsWith (hay pat : Str) : Bool := decide (pat <:+ hay)

/-- JS truthiness of a nullable string: `null`, `undefined` and `""` are falsy. -/
def truthyB (o : Option Str) : Bool :=
  match o with
  | none => false
  | some s => !s.isEmpty

/-- Chain `a || b || …` over nullable strings, returning the first truthy operand. -/
def firstTruthy : List (Option Str) → Option Str
  | [] => none
  | o :: rest =>
    match o with
    | some s => if s.isEmpty then firstTruthy rest else some s
    | none => firstTruthy rest

/-- JS `x || ''`. -/
def jsOrStr (o : Option Str) : Str :=
  match o with
  | none => []
  | some s => s

/-- JS `a || b` with a string default. -/
def jsOr (a : Option Str) (b : Str) : Str :=
  match a with
  | none => b
  | some s => if s.isEmpty then b else s

/-- JS `x || null`. -/
def jsOrNull (o : Option Str) : Option Str :=
  match o with
  | none => none
  | some s => if s.isEmpty then none else some s

/-- All characters are digits (`^\d+$` on a possibly empty string). -/
def isDigits (s : Str) : Bool := s.all jsIsDigit

/-! ### The PSGC code-shape patterns

These are the regexes used by every classifier in the repository, read off
`cleanPSGCData.js` lines 44-84 (the same literals appear in
`validatePSGC.js` and `fixMissingRecords.js`). -/

/-- Regex `^\d{2}0000000$` — Region shape. -/
def matchRegion (c : Str) : Bool :=
  c.length == 9 && isDigits (c.take 2) && c.drop 2 == zeros 7

/-- Regex `^\d{4}00000$` — Province shape. -/
def matchProvince (c : Str) : Bool :=
  c.length == 9 && isDigits (c.take 4) && c.drop 4 == zeros 5

/-- Regex `^\d{5}0000$` — District shape. -/
def matchDistrict (c : Str) : Bool :=
  c.length == 9 && isDigits (c.take 5) && c.drop 5 == zeros 4

/-- Regex `^\d{6}000$` — City/Municipality shape. -/
def matchCityMun (c : Str) : Bool :=
  c.length == 9 && isDigits (c.take 6) && c.drop 6 == zeros 3

/-- Regex `^\d{9}$`. -/
def matchNine (c : Str) : Bool :=
  c.length == 9 && isDigits c

/-- Regex `/000$/` — the code ends in three zeros. -/
def endsWith000 (c : Str) : Bool := jsEndsWith c (zeros 3)

/-! ### The normalizeCode variants -/

/-- Function `normalizeCode` from `cleanPSGCData.js` (lines 27-34): reject falsy input,
trim, strip non-digits, reject empty, left-pad to 9 with zeros and keep the
first 9 characters. -/
def cleanNormalizeCode : Option Str → Option Str
  | none => none
  | some s =>
    if s.isEmpty then none
    else if ((jsTrim s).filter jsIsDigit).length == 0 then none
    else some ((padStart 9 '0' ((jsTrim s).filter jsIsDigit)).take 9)

/-- Function `normalizeCode` from `importPSGC.js` (lines 125-131) and
`validatePSGC.js` (lines 42-47): trim only, no digit stripping. -/
def importNormalizeCode : Option Str → Option Str
  | none => none
  | some s =>
    if s.isEmpty then none
    else if (jsTrim s).length == 0 then none
    else some ((padStart 9 '0' (jsTrim s)).take 9)

/-- Function `normalizeCode` from `fixMissingRecords.js` (lines 26-29): no trim, no
digit stripping, just pad and cut. -/
def fixNormalizeCode : Option Str → Option Str
  | none => none
  | some s =>
    if s.isEmpty then none
    else some ((padStart 9 '0' s).take 9)

/-- Function `normalizeCode` from `downloadFromPSA.js`: a 10-digit code starting with
`0` loses its leading zero; otherwise pad/cut to 9. -/
def dlNormalizeCode : Option Str → Option Str
  | none => none
  | some s =>
    if s.isEmpty then none
    else if s.length == 10 && s.take 1 == toStr "0" then some (s.drop 1)
    else some ((padStart 9 '0' s).take 9)

/-- Function `normalizeCode` from `fetchFromPSGCCloud.js` (no null guard in source):
same 10-digit leading-zero rule. -/
def cloudNormalizeCode (s : Str) : Str :=
  if s.length == 10 && s.take 1 == toStr "0" then s.drop 1
  else (padStart 9 '0' s).take 9

/-! ### Entity classification (`cleanPSGCData.js` lines 37-86)

A raw record is a JS object with wildly varying field names; the `Row`
structure holds exactly the fields that `cleanData`/`classifyEntity` read,
each named after its JS key (bracketed keys get Lean-safe names, noted in
comments). -/

/-- The administrative levels produced by the classifiers. -/
inductive CLevel where
  | region
  | province
  | district
  | city
  | municipality
  | barangay
deriving DecidableEq, Repr

/-- A raw input record for `cleanPSGCData.js`.  Field-to-JS-key map:
`tenDigitPSGC` = `"10-digit PSGC"`, `correspondenceCode` =
`"Correspondence Code"`, `geographicLevel` = `"Geographic Level"`,
`cityClassTitle` = `"City Class"`, `cityClassLower` = `"city class"`,
`incomeClassification` = `"Income Classification"`, `incomeClassificationNl` =
`"Income\nClassification"`, `urbanRuralTitle` = `"Urban / Rural"`,
`urbanRuralNl` = `"Urban / Rural\n(based on 2020 CPH)"`, `capitalCap` =
`"Capital"`. -/
structure Row where
  code : Option Str := none
  codeCap : Option Str := none
  tenDigitPSGC : Option Str := none
  correspondenceCode : Option Str := none
  name : Option Str := none
  nameCap : Option Str := none
  type : Option Str := none
  typeCap : Option Str := none
  geographicLevel : Option Str := none
  city_class : Option Str := none
  cityClass : Option Str := none
  cityClassTitle : Option Str := none
  cityClassLower : Option Str := none
  island_group_code : Option Str := none
  islandGroupCode : Option Str := none
  island_group_name : Option Str := none
  islandGroupName : Option Str := none
  region_code : Option Str := none
  regionCode : Option Str := none
  province_code : Option Str := none
  provinceCode : Option Str := none
  income_class : Option Str := none
  incomeClass : Option Str := none
  incomeClassification : Option Str := none
  incomeClassificationNl : Option Str := none
  is_capital : Option Int := none
  isCapital : Option Int := none
  capital : Option Str := none
  capitalCap : Option Str := none
  urban_rural : Option Str := none
  urbanRural : Option Str := none
  urbanRuralTitle : Option Str := none
  urbanRuralNl : Option Str := none
deriving DecidableEq

/-- The empty JS object `{}` (the default for `classifyEntity`'s `row`). -/
def defaultRow : Row := {}

/-- The object returned by `classifyEntity` in `cleanPSGCData.js`:
`{ type, code, name }`, plus `cityClass` in the city branch. -/
structure ClassifiedEntity where
  level : CLevel
  code : Str
  name : Str
  cityClass : Option Str := none
deriving DecidableEq

/-- Function `classifyEntity(code, name, type, row)` from `cleanPSGCData.js`
(lines 37-86): normalize the code, reject all-zero, then match the five
shape patterns in order; within the City/Municipality shape run the
city-signal heuristic. -/
def classifyEntity (code : Option Str) (name type' : Str) (row : Row) :
    Option ClassifiedEntity :=
  match cleanNormalizeCode code with
  | none => none
  | some c =>
    if c = zeros 9 then none
    else
      let nameL := toLower (jsTrim name)
      let typeL := toLower (jsTrim type')
      if matchRegion c then
        some { level := .region, code := c, name := jsOr row.name nameL }
      else if matchProvince c then
        some { level := .province, code := c, name := jsOr row.name nameL }
      else if matchDistrict c then
        some { level := .district, code := c, name := jsOr row.name nameL }
      else if matchCityMun c then
        let isCity :=
          containsSub typeL (toStr "city") ||
          containsSub nameL (toStr "city of") ||
          jsEndsWith nameL (toStr " city") ||
          truthyB row.city_class || truthyB row.cityClass ||
          truthyB row.cityClassTitle || truthyB row.cityClassLower ||
          (containsSub nameL (toStr "city") &&
            (containsSub nameL (toStr "highly urbanized") ||
             containsSub nameL (toStr "independent component") ||
             containsSub nameL (toStr "component city")))
        if isCity then
          some { level := .city, code := c, name := jsOr row.name nameL,
                 cityClass := firstTruthy [row.city_class, row.cityClass, row.cityClassTitle] }
        else
          some { level := .municipality, code := c, name := jsOr row.name nameL }
      else if matchNine c && !endsWith000 c then
        some { level := .barangay, code := c, name := jsOr row.name nameL }
      else
        none

/-! ### The cleaning pass (`cleanPSGCData.js` lines 89-226) -/

/-- One cleaned output record (the `cleanEntity` object of `cleanData`,
with every level-specific field it can carry). -/
structure CleanEntity where
  level : CLevel
  code : Str
  name : Str
  island_group_code : Option Str := none
  island_group_name : Option Str := none
  region_code : Option Str := none
  province_code : Option Str := none
  city_class : Option Str := none
  income_class : Option Str := none
  is_capital : Option Int := none
  city_code : Option Str := none
  municipality_code : Option Str := none
  urban_rural : Option Str := none
deriving DecidableEq

/-- A reported duplicate (`{ index, code, name }`). -/
structure Duplicate where
  index : Nat
  code : Str
  name : Str
deriving DecidableEq

/-- A reported invalid record; the log payload (`item`/`code`/`name`) is not
load-bearing, only the index and the reason string are modelled. -/
structure InvalidEntry where
  index : Nat
  reason : Str
deriving DecidableEq

/-- The mutable state of `cleanData`'s `forEach` loop. -/
structure CleanState where
  regions : List CleanEntity := []
  provinces : List CleanEntity := []
  districts : List CleanEntity := []
  cities : List CleanEntity := []
  municipalities : List CleanEntity := []
  barangays : List CleanEntity := []
  seen : List Str := []
  duplicates : List Duplicate := []
  invalid : List InvalidEntry := []
deriving DecidableEq

/-- Local `const code = normalizeCode(item.code || item.Code || item['10-digit PSGC']
|| item['Correspondence Code'])` (line 107). -/
def cleanItemCode (item : Row) : Option Str :=
  cleanNormalizeCode
    (firstTruthy [item.code, item.codeCap, item.tenDigitPSGC, item.correspondenceCode])

/-- Local `const name = (item.name || item.Name || '').trim()` (line 108). -/
def cleanItemName (item : Row) : Str :=
  jsTrim (jsOrStr (firstTruthy [item.name, item.nameCap]))

/-- Local `const type = (item.type || item.Type || item['Geographic Level'] || '').trim()`
(line 109). -/
def cleanItemType (item : Row) : Str :=
  jsTrim (jsOrStr (firstTruthy [item.type, item.typeCap, item.geographicLevel]))

/-- Derived `code.substring(0, 2) + '0000000'`. -/
def derivedRegionCode (c : Str) : Str := c.take 2 ++ zeros 7

/-- Derived `code.substring(0, 4) + '00000'`. -/
def derivedProvinceCode (c : Str) : Str := c.take 4 ++ zeros 5

/-- Flag `item.is_capital === 1 || item.isCapital === 1 || item.capital === 'Yes'
|| item.Capital === 'Yes' ? 1 : 0` (lines 159/171). -/
def isCapitalFlag (item : Row) : Int :=
  if item.is_capital = some 1 ∨ item.isCapital = some 1 ∨
     item.capital = some (toStr "Yes") ∨ item.capitalCap = some (toStr "Yes")
  then 1 else 0

/-- One iteration of the `data.forEach` body of `cleanData`
(lines 105-190).  A record with the `district` level is classified but falls
through every `else if` branch, so it is silently dropped from the output
(faithful to the source, which never pushes to `cleaned.districts`). -/
def cleanStep (st : CleanState) (p : Nat × Row) : CleanState :=
  let idx := p.1
  let item := p.2
  let name := cleanItemName item
  match cleanItemCode item with
  | none => { st with invalid := st.invalid ++ [⟨idx, toStr "Missing code or name"⟩] }
  | some c =>
    if name.isEmpty then
      { st with invalid := st.invalid ++ [⟨idx, toStr "Missing code or name"⟩] }
    else if c ∈ st.seen then
      { st with duplicates := st.duplicates ++ [⟨idx, c, name⟩] }
    else
      let st1 := { st with seen := c :: st.seen }
      match classifyEntity (some c) name (cleanItemType item) item with
      | none => { st1 with invalid := st1.invalid ++ [⟨idx, toStr "Invalid PSGC pattern"⟩] }
      | some e =>
        match e.level with
        | .region =>
          { st1 with regions := st1.regions ++
              [{ level := .region, code := e.code, name := e.name,
                 island_group_code :=
                   cleanNormalizeCode (firstTruthy [item.island_group_code, item.islandGroupCode]),
                 island_group_name := firstTruthy [item.island_group_name, item.islandGroupName] }] }
        | .province =>
          { st1 with provinces := st1.provinces ++
              [{ level := .province, code := e.code, name := e.name,
                 region_code := cleanNormalizeCode
                   (some (jsOr (firstTruthy [item.region_code, item.regionCode]) (derivedRegionCode c))),
                 island_group_code :=
                   cleanNormalizeCode (firstTruthy [item.island_group_code, item.islandGroupCode]) }] }
        | .district => st1
        | .city =>
          { st1 with cities := st1.cities ++
              [{ level := .city, code := e.code, name := e.name,
                 province_code := cleanNormalizeCode
                   (some (jsOr (firstTruthy [item.province_code, item.provinceCode]) (derivedProvinceCode c))),
                 region_code := cleanNormalizeCode
                   (some (jsOr (firstTruthy [item.region_code, item.regionCode]) (derivedRegionCode c))),
                 city_class := firstTruthy
                   [e.cityClass, item.city_class, item.cityClass, item.cityClassTitle],
                 income_class := firstTruthy
                   [item.income_class, item.incomeClass, item.incomeClassification,
                    item.incomeClassificationNl],
                 is_capital := some (isCapitalFlag item) }] }
        | .municipality =>
          { st1 with municipalities := st1.municipalities ++
              [{ level := .municipality, code := e.code, name := e.name,
                 province_code := cleanNormalizeCode
                   (some (jsOr (firstTruthy [item.province_code, item.provinceCode]) (derivedProvinceCode c))),
                 region_code := cleanNormalizeCode
                   (some (jsOr (firstTruthy [item.region_code, item.regionCode]) (derivedRegionCode c))),
                 income_class := firstTruthy
                   [item.income_class, item.incomeClass, item.incomeClassification,
                    item.incomeClassificationNl],
                 is_capital := some (isCapitalFlag item) }] }
        | .barangay =>
          { st1 with barangays := st1.barangays ++
              [{ level := .barangay, code := e.code, name := e.name,
                 city_code := none, municipality_code := none,
                 province_code := cleanNormalizeCode
                   (some (jsOr (firstTruthy [item.province_code, item.provinceCode]) (derivedProvinceCode c))),
                 region_code := cleanNormalizeCode
                   (some (jsOr (firstTruthy [item.region_code, item.regionCode]) (derivedRegionCode c))),
                 urban_rural := firstTruthy
                   [item.urban_rural, item.urbanRural, item.urbanRuralTitle, item.urbanRuralNl] }] }

/-- Function `cleanData` from `cleanPSGCData.js` (lines 89-226), as the fold of the
`forEach` body over the indexed input. -/
def cleanData (data : List Row) : CleanState :=
  data.enum.foldl cleanStep {}

/-! ### `fixMissingRecords.js`: classification and baseline/supplement merge -/

/-- A raw record as read by `fixMissingRecords.js` (the fields its
`classifyEntity` consults; `type` is the JS `item.type`). -/
structure FixItem where
  code : Option Str := none
  name : Option Str := none
  type : Option Str := none
  city_class : Option Str := none
  cityClass : Option Str := none
  city_classification : Option Str := none
  cityCode : Option Str := none
deriving DecidableEq

/-- Function `classifyEntity(item)` from `fixMissingRecords.js` (lines 32-57).  The
city/municipality branch first checks for an explicit municipality name
(`municipality of`, or `municipality` without `city`), which suppresses every
city signal. -/
def fixClassifyEntity (item : FixItem) : Option CLevel :=
  match fixNormalizeCode item.code with
  | none => none
  | some code =>
    if matchRegion code then some .region
    else if matchProvince code then some .province
    else if matchCityMun code then
      let name := toLower (jsOrStr item.name)
      let type' := toLower (jsOrStr item.type)
      let isExplicitMunicipality :=
        containsSub name (toStr "municipality of") ||
        (containsSub name (toStr "municipality") && !containsSub name (toStr "city"))
      let isCity := !isExplicitMunicipality &&
        (type' == toStr "city" ||
         containsSub name (toStr "city of") ||
         jsEndsWith name (toStr " city") ||
         containsSub name (toStr "city") ||
         truthyB item.city_class || truthyB item.cityClass ||
         truthyB item.city_classification || truthyB item.cityCode)
      if isCity then some .city else some .municipality
    else if matchNine code && !endsWith000 code then some .barangay
    else none

/-- The normalized code of a record, used as its merge key
(`normalizeCode(item.code)`). -/
def codeKey (it : FixItem) : Option Str := fixNormalizeCode it.code

/-- The set of normalized codes of a batch (the keys of `completeMap`). -/
def codesOf (l : List FixItem) : List Str := l.filterMap codeKey

/-- First record of a batch carrying a given normalized code. -/
def lookupCode (l : List FixItem) (k : Str) : Option FixItem :=
  l.find? (fun it => codeKey it == some k)

/-- The `sourceData.forEach` pass of `fixMissingRecords` (lines 121-135):
collect, in order, the first record of each source code that is missing from
the baseline (`excl`), skipping codes already seen in this pass. -/
def missingAux (excl : List Str) : List FixItem → List Str → List FixItem
  | [], _ => []
  | it :: rest, seen =>
    match codeKey it with
    | none => missingAux excl rest seen
    | some c =>
      if c ∈ excl then missingAux excl rest seen
      else if c ∈ seen then missingAux excl rest seen
      else it :: missingAux excl rest (c :: seen)

/-- The `missingRecords.forEach` pass (lines 141-147): re-check each missing
record against the baseline map (which now also tracks the codes added in
this very pass) before pushing it. -/
def addMissing (excl : List Str) : List FixItem → List Str → List FixItem
  | [], _ => []
  | it :: rest, added =>
    match codeKey it with
    | none => addMissing excl rest added
    | some c =>
      if c ∈ excl ∨ c ∈ added then addMissing excl rest added
      else it :: addMissing excl rest (c :: added)

/-- The merge at the heart of `fixMissingRecords` (lines 109-147): keep the
baseline verbatim and append the supplement records whose codes the baseline
lacks. -/
def fixMerge (completeData sourceData : List FixItem) : List FixItem :=
  let completeCodes := codesOf completeData
  completeData ++ addMissing completeCodes (missingAux completeCodes sourceData []) []

/-! ### `importPSGC.js`: barangay insertion (lines 514-550 of the import
script revision with parent resolution) -/

/-- A row of the `barangays` table. -/
structure BarangayRow where
  code : Str
  name : Str
  city_code : Option Str := none
  municipality_code : Option Str := none
  province_code : Option Str := none
  region_code : Option Str := none
  urban_rural : Option Str := none
deriving DecidableEq

/-- The slice of the database `insertBarangay` touches: the `cities` and
`municipalities` code sets it probes with `SELECT code … WHERE code = ?`,
and the `barangays` table it upserts into. -/
structure ImportDB where
  cities : List Str := []
  municipalities : List Str := []
  barangays : List BarangayRow := []
deriving DecidableEq

/-- The record passed to `insertBarangay`. -/
structure BarangayData where
  code : Str
  name : Str
  city_code : Option Str := none
  municipality_code : Option Str := none
  province_code : Option Str := none
  region_code : Option Str := none
  urban_rural : Option Str := none
deriving DecidableEq

/-- Prefix `data.code.substring(0, 6) + '000'` — the barangay's parent
city/municipality code prefix. -/
def cityMuniCodeOf (code : Str) : Str := code.take 6 ++ zeros 3

/-- SQL `INSERT OR REPLACE` keyed on `code`. -/
def upsertByCode (rows : List BarangayRow) (r : BarangayRow) : List BarangayRow :=
  rows.filter (fun x => !(x.code == r.code)) ++ [r]

/-- Function `insertBarangay(data)` from `importPSGC.js` (lines 514-550): when neither
parent code is supplied, probe the cities table and then the municipalities
table for the code prefix; whatever the outcome, upsert the row. -/
def insertBarangay (db : ImportDB) (data : BarangayData) : ImportDB :=
  let cityMuniCode := cityMuniCodeOf data.code
  let cityCode := jsOrNull data.city_code
  let municipalityCode := jsOrNull data.municipality_code
  let parents :=
    if cityCode = none ∧ municipalityCode = none then
      if cityMuniCode ∈ db.cities then (some cityMuniCode, municipalityCode)
      else if cityMuniCode ∈ db.municipalities then (cityCode, some cityMuniCode)
      else (cityCode, municipalityCode)
    else (cityCode, municipalityCode)
  let row : BarangayRow :=
    { code := data.code, name := data.name,
      city_code := parents.1, municipality_code := parents.2,
      province_code := data.province_code, region_code := data.region_code,
      urban_rural := jsOrNull data.urban_rural }
  { db with barangays := upsertByCode db.barangays row }

/-! ### `validatePSGC.js`: the standards validator (lines 163-193) -/

/-- A per-level PSA reference standard `{ exact, min, max }`. -/
structure CountStandard where
  exact : Int
  min : Int
  max : Int
deriving DecidableEq

/-- The three reporting outcomes of `validateCount`: the exact-match branch
(returns `null`), the within-range branch and the out-of-range branch (both
return a message carrying the difference `actual - standard.exact`). -/
inductive CountResult where
  | exactMatch
  | withinRange (delta : Int)
  | outOfRange (delta : Int)
deriving DecidableEq

/-- Function `validateCount(name, actual, standard)` from `validatePSGC.js`
(lines 163-178).  Every branch returns normally; a mismatch is reported, not
thrown. -/
def validateCount (actual : Int) (standard : CountStandard) : CountResult :=
  let diff := actual - standard.exact
  if actual = standard.exact then .exactMatch
  else if standard.min ≤ actual ∧ actual ≤ standard.max then .withinRange diff
  else .outOfRange diff

/-- Constant `PSA_STANDARDS` of `validatePSGC.js` (lines 20-35; the city breakdown is
not consulted by `validateCount`). -/
structure PsaStandards where
  regions : CountStandard
  provinces : CountStandard
  cities : CountStandard
  municipalities : CountStandard
  barangays : CountStandard

/-- The published PSA figures hard-coded in `validatePSGC.js`. -/
def PSA_STANDARDS : PsaStandards :=
  { regions := ⟨18, 18, 18⟩
    provinces := ⟨82, 82, 82⟩
    cities := ⟨149, 149, 149⟩
    municipalities := ⟨1493, 1493, 1493⟩
    barangays := ⟨42011, 42011, 42011⟩ }

/-! ### Claim formalizations and concrete instances -/

/-- A valid geographic code in the sense of the spec: exactly 9 digits and
not the all-zero "no code" value. -/
def isValidCode (c : Str) : Prop :=
  c.length = 9 ∧ isDigits c = true ∧ c ≠ zeros 9

/-- The four shape levels named by claim C1 (`City/Municipality-shape`
covers both the city and the municipality outcome). -/
def fourShapeLevels : List CLevel :=
  [.region, .province, .city, .municipality, .barangay]

/-- All levels the classifier can produce (the four shapes of C1 plus the
District shape the code also recognises). -/
def allShapeLevels : List CLevel :=
  [.region, .province, .district, .city, .municipality, .barangay]

/-- Claim C1 as stated: classifying any valid non-all-zero 9-digit code
yields a level, and that level is one of the four claimed shapes. -/
def claimC1 : Prop :=
  ∀ c : Str, isValidCode c →
    ∃ e, classifyEntity (some c) [] [] defaultRow = some e ∧ e.level ∈ fourShapeLevels

/-- Claim C3 as stated, read against the cleaning pipeline's normalizer (the
first code location the claim cites): the 10-digit input `"0137401000"`
normalizes to `"137401000"`. -/
def claimC3 : Prop :=
  cleanNormalizeCode (some (toStr "0137401000")) = some (toStr "137401000")

/-- A first batch record for the duplicate-handling scenario of claim C2. -/
def rowAlpha : Row := { code := some (toStr "010000000"), name := some (toStr "Alpha") }

/-- A second record with the same code but a different name. -/
def rowBeta : Row := { code := some (toStr "010000000"), name := some (toStr "Beta") }

/-- A batch in which the same normalized code appears twice. -/
def dupBatch : List Row := [rowAlpha, rowBeta]

/-- Claim C2's "last-seen wins" at the concrete duplicate batch: the cleaned
output would have to carry the second record's name. -/
def lastWinsAtDupBatch : Prop :=
  (cleanData dupBatch).regions.map (fun e => e.name) = [toStr "Beta"]

/-- Claim C4 as stated: whenever the classifier of `cleanPSGCData.js` lands
in the City/Municipality shape and the record's name contains
`"municipality of"`, the assigned level is Municipality. -/
def claimC4 : Prop :=
  ∀ (code : Option Str) (name type' : Str) (row : Row) (e : ClassifiedEntity),
    classifyEntity code name type' row = some e →
    (e.level = CLevel.city ∨ e.level = CLevel.municipality) →
    containsSub (toLower (jsTrim name)) (toStr "municipality of") = true →
    e.level = CLevel.municipality

/-- The record `fixMissingRecords.js` must classify as a municipality even
though it carries every city signal (explicit type, city class). -/
def municipalityOfBayItem : FixItem :=
  { code := some (toStr "042103000")
    name := some (toStr "Municipality of Bay")
    type := some (toStr "City")
    city_class := some (toStr "CC") }

/-- Claim C5 as stated: a barangay without explicit parents whose code prefix
matches neither store ends up parented to a synthesized Municipality
placeholder. -/
def claimC5 : Prop :=
  ∀ (db : ImportDB) (data : BarangayData),
    jsOrNull data.city_code = none →
    jsOrNull data.municipality_code = none →
    cityMuniCodeOf data.code ∉ db.cities →
    cityMuniCodeOf data.code ∉ db.municipalities →
    cityMuniCodeOf data.code ∈ (insertBarangay db data).municipalities ∧
    ∃ r, r ∈ (insertBarangay db data).barangays ∧ r.code = data.code ∧
      ¬(r.city_code = none ∧ r.municipality_code = none)

/-- An orphan barangay record: no explicit parents. -/
def orphanBarangay : BarangayData := { code := toStr "042111001", name := toStr "Sample" }

/-- A database whose municipalities store holds the orphan's code prefix. -/
def dbWithMuni : ImportDB := { municipalities := [toStr "042111000"] }

/-- A second orphan barangay record, used with the empty database. -/
def orphanBarangay2 : BarangayData := { code := toStr "137602006", name := toStr "San Lorenzo" }

/-- The baseline record of the C6 merge scenario (code A). -/
def mergeBaseA : FixItem := { code := some (toStr "010000000"), name := some (toStr "A-base") }

/-- The conflicting supplement record for code A. -/
def mergeSuppA : FixItem := { code := some (toStr "010000000"), name := some (toStr "A-supp") }

/-- The supplement-only record for code B. -/
def mergeSuppB : FixItem := { code := some (toStr "020000000"), name := some (toStr "B-supp") }

/-! ### Helper lemmas about the string model -/

theorem jsIsDigit_not_ws {c : Char} (h : jsIsDigit c = true) : jsIsWs c = false := by
  unfold jsIsWs
  by_contra hw
  simp only [Bool.not_eq_false, Bool.or_eq_true, beq_iff_eq] at hw
  rcases hw with ((((h1 | h1) | h1) | h1) | h1) | h1 <;> subst h1 <;> simp [jsIsDigit] at h

theorem dropWhile_eq_self_of_none (p : Char → Bool) (s : Str)
    (h : ∀ c ∈ s, p c = false) : s.dropWhile p = s := by
  cases s with
  | nil => rfl
  | cons a t =>
    have ha := h a (List.mem_cons_self a t)
    simp [List.dropWhile_cons, ha]

theorem jsTrim_eq_self_of_digits {s : Str} (h : ∀ c ∈ s, jsIsDigit c = true) :
    jsTrim s = s := by
  unfold jsTrim
  rw [dropWhile_eq_self_of_none _ _ (fun c hc => jsIsDigit_not_ws (h c hc))]
  rw [dropWhile_eq_self_of_none _ _
    (fun c hc => jsIsDigit_not_ws (h c (List.mem_reverse.mp hc)))]
  exact List.reverse_reverse s

theorem cleanNormalizeCode_facts {x : Option Str} {y : Str}
    (h : cleanNormalizeCode x = some y) :
    y.length = 9 ∧ ∀ c ∈ y, jsIsDigit c = true := by
  cases x with
  | none => simp [cleanNormalizeCode] at h
  | some s =>
    simp only [cleanNormalizeCode] at h
    split at h
    · exact absurd h (by simp)
    · split at h
      · exact absurd h (by simp)
      · have hy := (Option.some.inj h).symm
        subst hy
        constructor
        · simp only [List.length_take, padStart, List.length_append, List.length_replicate]
          omega
        · intro c hc
          rcases List.mem_append.mp (List.mem_of_mem_take hc) with hrep | hfil
          · rw [List.eq_of_mem_replicate hrep]; decide
          · exact List.of_mem_filter hfil

theorem importNormalizeCode_length {x : Option Str} {y : Str}
    (h : importNormalizeCode x = some y) : y.length = 9 := by
  cases x with
  | none => simp [importNormalizeCode] at h
  | some s =>
    simp only [importNormalizeCode] at h
    split at h
    · exact absurd h (by simp)
    · split at h
      · exact absurd h (by simp)
      · have hy := (Option.some.inj h).symm
        subst hy
        simp only [List.length_take, padStart, List.length_append, List.length_replicate]
        omega

theorem cleanNormalizeCode_of_digits9 {c : Str} (h9 : c.length = 9)
    (hd : isDigits c = true) : cleanNormalizeCode (some c) = some c := by
  have hmem : ∀ ch ∈ c, jsIsDigit ch = true := List.all_eq_true.mp hd
  have hne : c.isEmpty = false := by
    cases c <;> simp_all
  have htrim : (jsTrim c).filter jsIsDigit = c := by
    rw [jsTrim_eq_self_of_digits hmem]
    exact List.filter_eq_self.mpr hmem
  have hpad : padStart 9 '0' c = c := by
    unfold padStart
    rw [h9]
    simp
  simp only [cleanNormalizeCode, hne, htrim, h9, hpad, Bool.false_eq_true, if_false]
  rw [if_neg (by simp), List.take_of_length_le (le_of_eq h9)]

theorem endsWith000_iff_drop6 {c : Str} (h9 : c.length = 9) :
    endsWith000 c = true ↔ c.drop 6 = zeros 3 := by
  unfold endsWith000 jsEndsWith
  rw [decide_eq_true_iff, List.suffix_iff_eq_drop]
  have hz : (zeros 3).length = 3 := by simp [zeros]
  rw [hz, h9]
  norm_num
  exact eq_comm

theorem shapes_cover {c : Str} (h9 : c.length = 9) (hd : isDigits c = true) :
    matchCityMun c = true ∨ (matchNine c && !endsWith000 c) = true := by
  have hall := List.all_eq_true.mp hd
  by_cases h6 : c.drop 6 = zeros 3
  · left
    unfold matchCityMun
    simp only [Bool.and_eq_true, beq_iff_eq]
    refine ⟨⟨h9, ?_⟩, h6⟩
    exact List.all_eq_true.mpr (fun x hx => hall x (List.mem_of_mem_take hx))
  · right
    have hend : endsWith000 c = false := by
      by_contra hcon
      simp only [Bool.not_eq_false] at hcon
      exact h6 ((endsWith000_iff_drop6 h9).mp hcon)
    unfold matchNine
    simp [h9, hd, hend]

/-! ### Claim C3 — 10-digit normalization boundary -/

/-- C3 counterexample: neither the cleaning script's nor the import script's
`normalizeCode` maps `"0137401000"` to `"137401000"`; both keep the first
nine digits, truncating the trailing digit instead of dropping the leading
zero. -/
theorem c3_counterexample :
    ¬ claimC3 ∧
    importNormalizeCode (some (toStr "0137401000")) ≠ some (toStr "137401000") := by
  unfold claimC3
  decide

/-- C3 (amended): only the downloader scripts' `normalizeCode` drops the
leading zero of a 10-digit code, yielding `"137401000"`; the
cleaning/import/validation normalizers truncate `"0137401000"` to its first
nine digits, `"013740100"`. -/
theorem c3_ten_digit_normalization :
    dlNormalizeCode (some (toStr "0137401000")) = some (toStr "137401000") ∧
    cloudNormalizeCode (toStr "0137401000") = toStr "137401000" ∧
    cleanNormalizeCode (some (toStr "0137401000")) = some (toStr "013740100") ∧
    importNormalizeCode (some (toStr "0137401000")) = some (toStr "013740100") := by
  decide

/-! ### Claim C7 — the standards validator reports, never throws -/

/-- C7: `validateCount` is a total function that always returns one of the
three reporting outcomes, carrying the delta `actual - expected` in the
non-exact branches; on actual Barangay count 490 against the exact standard
42011 (zero tolerance) it returns `OutOfRange(-41521)` rather than
throwing. -/
theorem c7_validate_count_reports (actual : Int) (standard : CountStandard) :
    (validateCount actual standard = CountResult.exactMatch ∨
     validateCount actual standard = CountResult.withinRange (actual - standard.exact) ∨
     validateCount actual standard = CountResult.outOfRange (actual - standard.exact)) ∧
    validateCount 490 PSA_STANDARDS.barangays = CountResult.outOfRange (-41521) := by
  constructor
  · simp only [validateCount]
    split
    · exact Or.inl rfl
    · split
      · exact Or.inr (Or.inl rfl)
      · exact Or.inr (Or.inr rfl)
  · decide

/-! ### Claim C8 — normalize is idempotent -/

/-- C8: whenever the cleaning script's `normalizeCode` succeeds, running it
again on its own output returns that output unchanged. -/
theorem c8_normalize_idempotent (x : Option Str) (y : Str)
    (h : cleanNormalizeCode x = some y) : cleanNormalizeCode (some y) = some y := by
  obtain ⟨hlen, hdig⟩ := cleanNormalizeCode_facts h
  exact cleanNormalizeCode_of_digits9 hlen (List.all_eq_true.mpr hdig)

/-- Witness for C8 at the concrete input `"13"`. -/
theorem c8_witness :
    cleanNormalizeCode (some (toStr "000000013")) = some (toStr "000000013") :=
  c8_normalize_idempotent (some (toStr "13")) (toStr "000000013") (by decide)

/-! ### Claim C9 — successful normalization always yields 9 characters -/

/-- C9: whenever `normalizeCode` (the cleaning script's digit-stripping
variant, or the import/validate scripts' trim-only variant) does not return
null, the returned string has length exactly 9. -/
theorem c9_normalized_length_nine (x : Option Str) (y : Str) :
    (cleanNormalizeCode x = some y → y.length = 9) ∧
    (importNormalizeCode x = some y → y.length = 9) :=
  ⟨fun h => (cleanNormalizeCode_facts h).1, fun h => importNormalizeCode_length h⟩

/-- Witness for C9: a short input is padded to 9 and an overlong input is cut
to 9, in both normalizer variants. -/
theorem c9_witness :
    (toStr "000000013").length = 9 ∧ (toStr "123456789").length = 9 :=
  ⟨(c9_normalized_length_nine (some (toStr "13")) (toStr "000000013")).1 (by decide),
   (c9_normalized_length_nine (some (toStr "1234567890")) (toStr "123456789")).2 (by decide)⟩

/-! ### Claim C2 — duplicate handling in the cleaning pass -/

/-- C2 counterexample: on a batch where code `010000000` appears twice
(names `Alpha` then `Beta`), the cleaned output keeps the first record's
name — last-seen does not win — while the second occurrence is only recorded
in the duplicates report. -/
theorem c2_counterexample :
    ¬ lastWinsAtDupBatch ∧
    (cleanData dupBatch).regions.map (fun e => e.name) = [toStr "Alpha"] ∧
    (cleanData dupBatch).duplicates = [⟨1, toStr "010000000", toStr "Beta"⟩] := by
  unfold lastWinsAtDupBatch
  decide

/-- C2 (amended): when a record's normalized code was already seen in the
batch, the cleaning pass leaves every output list untouched — the earlier
record wins — and only appends the occurrence to the duplicates report. -/
theorem c2_first_seen_wins (st : CleanState) (idx : Nat) (item : Row) (c : Str)
    (hcode : cleanItemCode item = some c)
    (hname : (cleanItemName item).isEmpty = false)
    (hseen : c ∈ st.seen) :
    cleanStep st (idx, item) =
      { st with duplicates := st.duplicates ++ [⟨idx, c, cleanItemName item⟩] } := by
  simp only [cleanStep, hcode]
  rw [if_neg (by simp [hname]), if_pos hseen]

/-- Witness for C2: feeding the `Beta` record to the state left by the
`Alpha` record produces exactly one extra duplicates entry. -/
theorem c2_witness :
    cleanStep (cleanData [rowAlpha]) (1, rowBeta) =
      { cleanData [rowAlpha] with duplicates :=
          (cleanData [rowAlpha]).duplicates ++ [⟨1, toStr "010000000", toStr "Beta"⟩] } :=
  c2_first_seen_wins (cleanData [rowAlpha]) 1 rowBeta (toStr "010000000")
    (by decide) (by decide) (by decide)

/-! ### Claim C4 — "municipality of" overriding city signals -/

/-- C4 counterexample: `cleanPSGCData.js`'s classifier has no
"municipality of" override — a record named `Municipality of Bay` with
explicit type `City` is classified as a City. -/
theorem c4_counterexample : ¬ claimC4 := by
  intro h
  have h2 := h (some (toStr "042103000")) (toStr "Municipality of Bay") (toStr "City")
    defaultRow { level := .city, code := toStr "042103000", name := toStr "municipality of bay" }
    (by decide) (Or.inl rfl) (by decide)
  exact absurd h2 (by decide)

/-- C4 (amended): in `fixMissingRecords.js`'s classifier the override does
hold — a City/Municipality-shaped record whose name contains
`"municipality of"` is classified Municipality regardless of any type,
city-class or name signal. -/
theorem c4_fix_municipality_override (item : FixItem) (c : Str)
    (hnorm : fixNormalizeCode item.code = some c)
    (hreg : matchRegion c = false) (hprov : matchProvince c = false)
    (hcm : matchCityMun c = true)
    (hmun : containsSub (toLower (jsOrStr item.name)) (toStr "municipality of") = true) :
    fixClassifyEntity item = some CLevel.municipality := by
  simp only [fixClassifyEntity, hnorm]
  simp [hreg, hprov, hcm, hmun]

/-- Witness for C4 on a record carrying every city signal plus a
"municipality of" name. -/
theorem c4_witness : fixClassifyEntity municipalityOfBayItem = some CLevel.municipality :=
  c4_fix_municipality_override municipalityOfBayItem (toStr "042103000")
    (by decide) (by decide) (by decide) (by decide) (by decide)

/-! ### Claims C5 and C10 — barangay parent resolution in `insertBarangay` -/

/-- C5 counterexample: with empty city and municipality stores, the orphan
barangay is inserted with both parent fields null and no Municipality
placeholder is created. -/
theorem c5_counterexample : ¬ claimC5 := by
  intro h
  have h2 := h {} orphanBarangay (by decide) (by decide) (by decide) (by decide)
  exact absurd h2.1 (by decide)

/-- C5 (amended): for a barangay without explicit parents, `insertBarangay`
computes the 6-digit-prefix-plus-000 code, probes the cities store first and
the municipalities store second, assigns the first match, and when neither
matches it still inserts the row — with both parent fields null and without
synthesizing any placeholder record. -/
theorem c5_parent_lookup_no_placeholder (db : ImportDB) (data : BarangayData)
    (hc : jsOrNull data.city_code = none) (hm : jsOrNull data.municipality_code = none) :
    (insertBarangay db data).barangays = upsertByCode db.barangays
      { code := data.code, name := data.name,
        city_code := if cityMuniCodeOf data.code ∈ db.cities
          then some (cityMuniCodeOf data.code) else none,
        municipality_code := if cityMuniCodeOf data.code ∈ db.cities then none
          else if cityMuniCodeOf data.code ∈ db.municipalities
            then some (cityMuniCodeOf data.code) else none,
        province_code := data.province_code, region_code := data.region_code,
        urban_rural := jsOrNull data.urban_rural } ∧
    (insertBarangay db data).municipalities = db.municipalities ∧
    (insertBarangay db data).cities = db.cities := by
  simp only [insertBarangay, hc, hm]
  refine ⟨?_, trivial, trivial⟩
  by_cases h1 : cityMuniCodeOf data.code ∈ db.cities
  · simp [h1]
  · by_cases h2 : cityMuniCodeOf data.code ∈ db.municipalities
    · simp [h1, h2]
    · simp [h1, h2]

/-- Witness for C5: with the prefix present only in the municipalities
store, the barangay gets `municipality_code` assigned. -/
theorem c5_witness :
    (insertBarangay dbWithMuni orphanBarangay).barangays = upsertByCode dbWithMuni.barangays
      { code := orphanBarangay.code, name := orphanBarangay.name,
        city_code := if cityMuniCodeOf orphanBarangay.code ∈ dbWithMuni.cities
          then some (cityMuniCodeOf orphanBarangay.code) else none,
        municipality_code := if cityMuniCodeOf orphanBarangay.code ∈ dbWithMuni.cities then none
          else if cityMuniCodeOf orphanBarangay.code ∈ dbWithMuni.municipalities
            then some (cityMuniCodeOf orphanBarangay.code) else none,
        province_code := orphanBarangay.province_code,
        region_code := orphanBarangay.region_code,
        urban_rural := jsOrNull orphanBarangay.urban_rural } ∧
    (insertBarangay dbWithMuni orphanBarangay).municipalities = dbWithMuni.municipalities ∧
    (insertBarangay dbWithMuni orphanBarangay).cities = dbWithMuni.cities :=
  c5_parent_lookup_no_placeholder dbWithMuni orphanBarangay (by decide) (by decide)

/-- C10: when neither parent is set and the prefix is found in neither
store, the barangay is still inserted, with both `city_code` and
`municipality_code` null, and both parent stores are left unchanged — the
operation neither synthesizes a parent nor rejects the record. -/
theorem c10_orphan_inserted_unparented (db : ImportDB) (data : BarangayData)
    (hc : jsOrNull data.city_code = none) (hm : jsOrNull data.municipality_code = none)
    (hnc : cityMuniCodeOf data.code ∉ db.cities)
    (hnm : cityMuniCodeOf data.code ∉ db.municipalities) :
    (insertBarangay db data).barangays = upsertByCode db.barangays
      { code := data.code, name := data.name, city_code := none, municipality_code := none,
        province_code := data.province_code, region_code := data.region_code,
        urban_rural := jsOrNull data.urban_rural } ∧
    (insertBarangay db data).cities = db.cities ∧
    (insertBarangay db data).municipalities = db.municipalities := by
  simp only [insertBarangay, hc, hm]
  refine ⟨?_, trivial, trivial⟩
  simp [hnc, hnm]

/-- Witness for C10 at the empty database. -/
theorem c10_witness :
    (insertBarangay {} orphanBarangay2).barangays = upsertByCode ({} : ImportDB).barangays
      { code := orphanBarangay2.code, name := orphanBarangay2.name,
        city_code := none, municipality_code := none,
        province_code := orphanBarangay2.province_code,
        region_code := orphanBarangay2.region_code,
        urban_rural := jsOrNull orphanBarangay2.urban_rural } ∧
    (insertBarangay {} orphanBarangay2).cities = ({} : ImportDB).cities ∧
    (insertBarangay {} orphanBarangay2).municipalities = ({} : ImportDB).municipalities :=
  c10_orphan_inserted_unparented {} orphanBarangay2 (by decide) (by decide)
    (by decide) (by decide)

/-! ### Claim C1 — shape classification totality and the four-shape taxonomy -/

/-- Both branches of a boolean choice between two classified entities give a
classified entity whose level lies in the full shape list. -/
theorem ite_classified_exists (b : Bool) (X Y : ClassifiedEntity)
    (hX : X.level ∈ allShapeLevels) (hY : Y.level ∈ allShapeLevels) :
    ∃ e, (if b = true then some X else some Y) = some e ∧ e.level ∈ allShapeLevels := by
  cases b
  · exact ⟨Y, by simp, hY⟩
  · exact ⟨X, by simp, hX⟩

/-- C1 counterexample: the valid non-all-zero 9-digit code `123450000`
(exactly four trailing zeros) is classified as a District — a fifth shape
outside the claim's four — so the four-pattern taxonomy is not total. -/
theorem c1_counterexample : ¬ claimC1 := by
  intro h
  obtain ⟨e, he, hmem⟩ := h (toStr "123450000") (by refine ⟨by decide, by decide, by decide⟩)
  have hd : classifyEntity (some (toStr "123450000")) [] [] defaultRow =
      some { level := .district, code := toStr "123450000", name := [] } := by decide
  rw [hd] at he
  rw [← Option.some.inj he] at hmem
  exact absurd hmem (by decide)

/-- C1 (amended): over every valid non-all-zero 9-digit code, the classifier
performed by `cleanPSGCData.js` is total — it always returns exactly one of
the five shape levels {Region, Province, District, City/Municipality,
Barangay}, and the null/unclassifiable outcome is unreachable.  (Codes with
exactly four trailing zeros take the District shape rather than one of the
claim's four.) -/
theorem c1_classification_total (c : Str) (hv : isValidCode c) :
    ∃ e, classifyEntity (some c) [] [] defaultRow = some e ∧ e.level ∈ allShapeLevels := by
  obtain ⟨h9, hd, hnz⟩ := hv
  have hn := cleanNormalizeCode_of_digits9 h9 hd
  simp only [classifyEntity, hn]
  rw [if_neg hnz]
  by_cases h1 : matchRegion c = true
  · rw [if_pos h1]; exact ⟨_, rfl, by simp [allShapeLevels]⟩
  · rw [if_neg h1]
    by_cases h2 : matchProvince c = true
    · rw [if_pos h2]; exact ⟨_, rfl, by simp [allShapeLevels]⟩
    · rw [if_neg h2]
      by_cases h3 : matchDistrict c = true
      · rw [if_pos h3]; exact ⟨_, rfl, by simp [allShapeLevels]⟩
      · rw [if_neg h3]
        by_cases h4 : matchCityMun c = true
        · rw [if_pos h4]
          exact ite_classified_exists _ _ _ (by simp [allShapeLevels]) (by simp [allShapeLevels])
        · rw [if_neg h4]
          rcases shapes_cover h9 hd with h5 | h5
          · exact absurd h5 h4
          · rw [if_pos h5]; exact ⟨_, rfl, by simp [allShapeLevels]⟩

/-- Witness for C1 at the concrete barangay-shaped code `137401001`. -/
theorem c1_witness :
    ∃ e, classifyEntity (some (toStr "137401001")) [] [] defaultRow = some e ∧
      e.level ∈ allShapeLevels :=
  c1_classification_total (toStr "137401001") ⟨by decide, by decide, by decide⟩

/-! ### Claim C6 — the baseline/supplement merge of `fixMissingRecords.js` -/

theorem lookupCode_nil (k : Str) : lookupCode [] k = none := rfl

theorem lookupCode_eq_none_iff (l : List FixItem) (k : Str) :
    lookupCode l k = none ↔ k ∉ codesOf l := by
  unfold lookupCode codesOf
  rw [List.find?_eq_none]
  constructor
  · intro h hk
    obtain ⟨it, hit, hkey⟩ := List.mem_filterMap.mp hk
    exact h it hit (by simp [hkey])
  · intro h it hit hbeq
    exact h (List.mem_filterMap.mpr ⟨it, hit, by simpa using hbeq⟩)

theorem lookupCode_append (l₁ l₂ : List FixItem) (k : Str) :
    lookupCode (l₁ ++ l₂) k = (lookupCode l₁ k).or (lookupCode l₂ k) :=
  List.find?_append

theorem lookupCode_cons_none {it : FixItem} (rest : List FixItem) (k : Str)
    (h : codeKey it ≠ some k) : lookupCode (it :: rest) k = lookupCode rest k :=
  List.find?_cons_of_neg rest (by simp [h])

theorem lookupCode_cons_some {it : FixItem} (rest : List FixItem) (k : Str)
    (h : codeKey it = some k) : lookupCode (it :: rest) k = some it :=
  List.find?_cons_of_pos rest (by simp [h])

theorem lookup_missingAux (excl : List Str) (s : List FixItem) :
    ∀ (seen : List Str) (k : Str),
      lookupCode (missingAux excl s seen) k =
        if k ∈ excl ∨ k ∈ seen then none else lookupCode s k := by
  induction s with
  | nil =>
    intro seen k
    simp only [missingAux, lookupCode_nil]
    split <;> rfl
  | cons it rest ih =>
    intro seen k
    cases hk : codeKey it with
    | none =>
      rw [show missingAux excl (it :: rest) seen = missingAux excl rest seen by
        simp only [missingAux, hk]]
      rw [ih seen k, lookupCode_cons_none rest k (by simp [hk])]
    | some c =>
      by_cases hce : c ∈ excl
      · rw [show missingAux excl (it :: rest) seen = missingAux excl rest seen by
          simp only [missingAux, hk]; rw [if_pos hce]]
        rw [ih seen k]
        by_cases hcond : k ∈ excl ∨ k ∈ seen
        · rw [if_pos hcond, if_pos hcond]
        · rw [if_neg hcond, if_neg hcond,
            lookupCode_cons_none rest k (by
              rw [hk]
              intro hkk
              cases hkk
              exact hcond (Or.inl hce))]
      · by_cases hcs : c ∈ seen
        · rw [show missingAux excl (it :: rest) seen = missingAux excl rest seen by
            simp only [missingAux, hk]; rw [if_neg hce, if_pos hcs]]
          rw [ih seen k]
          by_cases hcond : k ∈ excl ∨ k ∈ seen
          · rw [if_pos hcond, if_pos hcond]
          · rw [if_neg hcond, if_neg hcond,
              lookupCode_cons_none rest k (by
                rw [hk]
                intro hkk
                cases hkk
                exact hcond (Or.inr hcs))]
        · rw [show missingAux excl (it :: rest) seen =
              it :: missingAux excl rest (c :: seen) by
            simp only [missingAux, hk]; rw [if_neg hce, if_neg hcs]]
          by_cases hkc : c = k
          · subst hkc
            rw [lookupCode_cons_some _ c hk, if_neg (by
              intro hcond
              exact hcond.elim hce hcs)]
            rw [lookupCode_cons_some rest c hk]
          · rw [lookupCode_cons_none _ k (by rw [hk]; intro hkk; cases hkk; exact hkc rfl)]
            rw [ih (c :: seen) k]
            have hmem : (k ∈ excl ∨ k ∈ c :: seen) ↔ (k ∈ excl ∨ k ∈ seen) := by
              constructor
              · rintro (h1 | h1)
                · exact Or.inl h1
                · cases List.mem_cons.mp h1 with
                  | inl heq => exact absurd heq.symm hkc
                  | inr htail => exact Or.inr htail
              · rintro (h1 | h1)
                · exact Or.inl h1
                · exact Or.inr (List.mem_cons_of_mem c h1)
            by_cases hcond : k ∈ excl ∨ k ∈ seen
            · rw [if_pos (hmem.mpr hcond), if_pos hcond]
            · rw [if_neg (fun hx => hcond (hmem.mp hx)), if_neg hcond,
                lookupCode_cons_none rest k (by rw [hk]; intro hkk; cases hkk; exact hkc rfl)]

theorem addMissing_missingAux (excl : List Str) (s : List FixItem) :
    ∀ (seen added : List Str), (∀ k, k ∈ added → k ∈ seen) →
      addMissing excl (missingAux excl s seen) added = missingAux excl s seen := by
  induction s with
  | nil => intro seen added _; rfl
  | cons it rest ih =>
    intro seen added hsub
    cases hk : codeKey it with
    | none =>
      rw [show missingAux excl (it :: rest) seen = missingAux excl rest seen by
        simp only [missingAux, hk]]
      exact ih seen added hsub
    | some c =>
      by_cases hce : c ∈ excl
      · rw [show missingAux excl (it :: rest) seen = missingAux excl rest seen by
          simp only [missingAux, hk]; rw [if_pos hce]]
        exact ih seen added hsub
      · by_cases hcs : c ∈ seen
        · rw [show missingAux excl (it :: rest) seen = missingAux excl rest seen by
            simp only [missingAux, hk]; rw [if_neg hce, if_pos hcs]]
          exact ih seen added hsub
        · rw [show missingAux excl (it :: rest) seen =
              it :: missingAux excl rest (c :: seen) by
            simp only [missingAux, hk]; rw [if_neg hce, if_neg hcs]]
          have hnotadded : c ∉ added := fun hmem => hcs (hsub c hmem)
          rw [show addMissing excl (it :: missingAux excl rest (c :: seen)) added =
              it :: addMissing excl (missingAux excl rest (c :: seen)) (c :: added) by
            simp only [addMissing, hk]
            rw [if_neg (by rintro (h1 | h1); exact hce h1; exact hnotadded h1)]]
          rw [ih (c :: seen) (c :: added) (by
            intro k hkmem
            cases List.mem_cons.mp hkmem with
            | inl heq => exact heq ▸ List.mem_cons_self c seen
            | inr htail => exact List.mem_cons_of_mem c (hsub k htail))]

theorem fixMerge_eq (cData sData : List FixItem) :
    fixMerge cData sData = cData ++ missingAux (codesOf cData) sData [] := by
  simp only [fixMerge]
  rw [addMissing_missingAux (codesOf cData) sData [] [] (fun k hk => hk)]

theorem merge_lookup_in_base (cData sData : List FixItem) (k : Str)
    (hk : k ∈ codesOf cData) :
    lookupCode (fixMerge cData sData) k = lookupCode cData k := by
  rw [fixMerge_eq, lookupCode_append]
  cases hl : lookupCode cData k with
  | none => exact absurd ((lookupCode_eq_none_iff cData k).mp hl) (fun h => h hk)
  | some v => rw [Option.or_some]

theorem merge_lookup_supp_only (cData sData : List FixItem) (k : Str)
    (hkc : k ∉ codesOf cData) (_hks : k ∈ codesOf sData) :
    lookupCode (fixMerge cData sData) k = lookupCode sData k := by
  rw [fixMerge_eq, lookupCode_append,
    (lookupCode_eq_none_iff cData k).mpr hkc, Option.none_or,
    lookup_missingAux (codesOf cData) sData [] k,
    if_neg (by rintro (h1 | h1); exact hkc h1; cases h1)]

theorem merge_lookup_neither (cData sData : List FixItem) (k : Str)
    (hkc : k ∉ codesOf cData) (hks : k ∉ codesOf sData) :
    lookupCode (fixMerge cData sData) k = none := by
  rw [fixMerge_eq, lookupCode_append,
    (lookupCode_eq_none_iff cData k).mpr hkc, Option.none_or,
    lookup_missingAux (codesOf cData) sData [] k]
  by_cases hcond : k ∈ codesOf cData ∨ k ∈ ([] : List Str)
  · rw [if_pos hcond]
  · rw [if_neg hcond]
    exact (lookupCode_eq_none_iff sData k).mpr hks

/-- C6: the merge of `fixMissingRecords.js` (i) keeps the baseline verbatim
as a prefix, (ii) resolves every baseline code to the baseline record,
(iii) adds every supplement-only code, resolving it to its first supplement
record, (iv) is commutative on disjoint code sets under code lookup, and
(v) on the concrete scenario merges `{A:baseline}` with
`{A:supplement, B:supplement}` into `{A:baseline, B:supplement}`. -/
theorem c6_merge_baseline_preferring :
    (∀ cData sData : List FixItem, ∃ tail, fixMerge cData sData = cData ++ tail) ∧
    (∀ (cData sData : List FixItem) (k : Str), k ∈ codesOf cData →
      lookupCode (fixMerge cData sData) k = lookupCode cData k) ∧
    (∀ (cData sData : List FixItem) (k : Str), k ∉ codesOf cData → k ∈ codesOf sData →
      lookupCode (fixMerge cData sData) k = lookupCode sData k) ∧
    (∀ cData sData : List FixItem, (∀ k, ¬(k ∈ codesOf cData ∧ k ∈ codesOf sData)) →
      ∀ k, lookupCode (fixMerge cData sData) k = lookupCode (fixMerge sData cData) k) ∧
    fixMerge [mergeBaseA] [mergeSuppA, mergeSuppB] = [mergeBaseA, mergeSuppB] := by
  refine ⟨fun cData sData => ⟨_, fixMerge_eq cData sData⟩,
    merge_lookup_in_base, merge_lookup_supp_only, ?_, by decide⟩
  intro cData sData hdisj k
  by_cases hkc : k ∈ codesOf cData
  · have hks : k ∉ codesOf sData := fun hx => hdisj k ⟨hkc, hx⟩
    rw [merge_lookup_in_base cData sData k hkc,
      merge_lookup_supp_only sData cData k hks hkc]
  · by_cases hks : k ∈ codesOf sData
    · rw [merge_lookup_supp_only cData sData k hkc hks,
        merge_lookup_in_base sData cData k hks]
    · rw [merge_lookup_neither cData sData k hkc hks,
        merge_lookup_neither sData cData k hks hkc]

/-- Witness for C6: in the concrete scenario, code B resolves through the
merged output to its supplement record. -/
theorem c6_witness :
    lookupCode (fixMerge [mergeBaseA] [mergeSuppA, mergeSuppB]) (toStr "020000000") =
      lookupCode [mergeSuppA, mergeSuppB] (toStr "020000000") :=
  c6_merge_baseline_preferring.2.2.1 [mergeBaseA] [mergeSuppA, mergeSuppB]
    (toStr "020000000") (by decide) (by decide)

end PSGC
